import Mathlib

/-!
Shallow embedding of the GestOrderBot orchestration layer (src/main.py):
an OrdersBot holding a registry of per-chat sessions, Telegram command
handlers (start, help, reset), the non-command message handler that invokes
the agent, the run() lifecycle sequence, and the environment-driven
bootstrap in main().  Side effects (replies, typing indicators, session
clears, agent invocations, log lines) are recorded as explicit effect
traces; the external agent invocation outcome is a parameter.
-/

namespace GestOrderBot

/-- A SQLiteSession object as created by OrdersBot._get_session.
The handle field models Python object identity: every constructor call
produces a fresh handle, drawn from the bot's counter. -/
structure Session where
  handle : Nat
  sessionId : String
  dbPath : String
  deriving DecidableEq, Repr

/-- An inbound Telegram message: chat id and optional text. -/
structure Message where
  chatId : Int
  text : Option String
  deriving DecidableEq, Repr

/-- A Telegram update, whose message field may be absent. -/
structure TgUpdate where
  message : Option Message
  deriving DecidableEq, Repr

/-- Observable side effects the handlers perform, in order. -/
inductive Effect where
  | sendTyping
  | reply (text : String)
  | clearSession (handle : Nat)
  | agentRun (input : String) (sessionHandle : Nat)
  | logException
  deriving DecidableEq, Repr

/-- Mutable state of an OrdersBot instance: the token, the session
registry (Python dict chat_id -> SQLiteSession, modelled as an
association list in insertion order), the fresh-handle counter, and
whether the telegram Application has been built. -/
structure Bot where
  telegramToken : String
  sessions : List (Int × Session)
  nextHandle : Nat
  applicationBuilt : Bool
  deriving DecidableEq, Repr

/-- Python truthiness of an optional string: None and the empty string
are falsy, every other string is truthy. -/
def pyTruthy : Option String → Bool
  | none => false
  | some s => s ≠ ""

/-- Python x or d for an optional string x: yields x when truthy,
otherwise d. -/
def pyOr (x : Option String) (d : String) : String :=
  if pyTruthy x then x.getD "" else d

/-- OrdersBot.__init__: reads TELEGRAM_BOT_TOKEN from the environment and
raises RuntimeError when it is absent or empty; otherwise the bot starts
with an empty session registry and no Application built. -/
def initBot (env : String → Option String) : Except String Bot :=
  let token := env "TELEGRAM_BOT_TOKEN"
  if pyTruthy token then
    Except.ok { telegramToken := token.getD ""
                sessions := []
                nextHandle := 0
                applicationBuilt := false }
  else
    Except.error "TELEGRAM_BOT_TOKEN non impostato nelle variabili d\x27ambiente"

/-- Dict lookup self.sessions[chat_id] (first entry with that key). -/
def lookupSession (chatId : Int) : List (Int × Session) → Option Session
  | [] => none
  | (k, s) :: rest => if k = chatId then some s else lookupSession chatId rest

/-- Dict deletion del self.sessions[chat_id]. -/
def eraseSession (chatId : Int) (l : List (Int × Session)) : List (Int × Session) :=
  l.filter (fun p => p.1 ≠ chatId)

/-- OrdersBot._get_session: return the stored session for the chat, or
create a SQLiteSession(str(chat_id), "sessions.db"), store it and return
it.  A fresh handle is drawn from the counter on creation. -/
def getSession (bot : Bot) (chatId : Int) : Session × Bot :=
  match lookupSession chatId bot.sessions with
  | some s => (s, bot)
  | none =>
      let s : Session :=
        { handle := bot.nextHandle, sessionId := toString chatId, dbPath := "sessions.db" }
      (s, { bot with sessions := bot.sessions ++ [(chatId, s)]
                     nextHandle := bot.nextHandle + 1 })

/-- Static text replied to /start. -/
def startText : String :=
  "Ciao! 👋 Sono il tuo assistente ordini.\n\n" ++
  "Puoi scrivere cose come:\n" ++
  "- *Inserisci un nuovo ordine per il cliente 1234 con consegna il 20/11*\n" ++
  "- *Mostrami lo stato dell\x27ordine 5678*\n" ++
  "- *Che prezzi abbiamo per l\x27articolo ABC123?*\n\n" ++
  "Scrivi in linguaggio naturale e penserò io a parlare con il gestionale. 😉"

/-- Static text replied to /help. -/
def helpText : String :=
  "Posso aiutarti a:\n" ++
  "- Inserire nuovi ordini\n" ++
  "- Consultare lo stato avanzamento ordini\n" ++
  "- Recuperare informazioni commerciali (prezzi, sconti, disponibilità)\n\n" ++
  "Dimmi semplicemente cosa ti serve, ad esempio:\n" ++
  "*Vorrei inserire un ordine per il cliente 90017863 per 10 pezzi di MP002.*"

/-- Confirmation text replied by /reset. -/
def resetConfirmText : String :=
  "✅ Ho azzerato la memoria della conversazione per questa chat."

/-- Fixed apology sent when the agent invocation raises. -/
def apologyText : String :=
  "❌ Mi spiace, ho avuto un errore interno mentre processavo la tua richiesta."

/-- Fixed fallback sent when the agent final output is empty or absent. -/
def fallbackText : String :=
  "Non ho ottenuto alcuna risposta dall\x27agent."

/-- OrdersBot.start: replies with the static welcome text.  The source
dereferences update.message without a guard, so an update without a
message raises AttributeError (modelled as an error result). -/
def start (bot : Bot) (upd : TgUpdate) : Except String (Bot × List Effect) :=
  match upd.message with
  | none => Except.error "AttributeError"
  | some _ => Except.ok (bot, [Effect.reply startText])

/-- OrdersBot.help_command: replies with the static help text; same
unguarded update.message dereference as start. -/
def help_command (bot : Bot) (upd : TgUpdate) : Except String (Bot × List Effect) :=
  match upd.message with
  | none => Except.error "AttributeError"
  | some _ => Except.ok (bot, [Effect.reply helpText])

/-- OrdersBot.reset_command: returns silently when the update has no
message; otherwise, when a session is registered for the chat, clears it
and deletes the registry entry; in both cases replies with the
confirmation text. -/
def reset_command (bot : Bot) (upd : TgUpdate) : Bot × List Effect :=
  match upd.message with
  | none => (bot, [])
  | some m =>
      match lookupSession m.chatId bot.sessions with
      | some s =>
          ({ bot with sessions := eraseSession m.chatId bot.sessions },
           [Effect.clearSession s.handle, Effect.reply resetConfirmText])
      | none => (bot, [Effect.reply resetConfirmText])

/-- Outcome of the external Runner.run call: either it raises, or it
returns a result whose final_output is an optional string. -/
inductive AgentOutcome where
  | raised
  | ok (finalOutput : Option String)
  deriving DecidableEq, Repr

/-- OrdersBot.handle_message: returns silently when the message or its
text is absent or empty; otherwise shows the typing action, fetches or
creates the session, invokes the agent on the stripped text, and replies
with the final output (with fallback on empty) or, when the invocation
raises, logs the exception and replies with the fixed apology. -/
def handle_message (bot : Bot) (upd : TgUpdate) (agent : AgentOutcome) :
    Bot × List Effect :=
  match upd.message with
  | none => (bot, [])
  | some m =>
      if pyTruthy m.text then
        let userMessage := (m.text.getD "").trim
        let res := getSession bot m.chatId
        match agent with
        | AgentOutcome.raised =>
            (res.2, [Effect.sendTyping,
                     Effect.agentRun userMessage res.1.handle,
                     Effect.logException,
                     Effect.reply apologyText])
        | AgentOutcome.ok out =>
            (res.2, [Effect.sendTyping,
                     Effect.agentRun userMessage res.1.handle,
                     Effect.reply (pyOr out fallbackText)])
      else (bot, [])

/-- The texts of the reply effects of a trace, in order. -/
def repliesOf : List Effect → List String
  | [] => []
  | Effect.reply t :: rest => t :: repliesOf rest
  | _ :: rest => repliesOf rest

/-- State reached by an Except-valued handler: the prior state when the
handler raised, the returned state otherwise. -/
def resultState (prior : Bot) : Except String (Bot × List Effect) → Bot
  | Except.error _ => prior
  | Except.ok r => r.1

-- ----- run() lifecycle -----

/-- Steps of OrdersBot.run in the order the source performs them. -/
inductive LEffect where
  | buildApplication
  | registerHandlers
  | initApp
  | startApp
  | startPolling
  | updaterStop
  | stopApp
  | shutdownApp
  deriving DecidableEq, Repr

/-- Which of the three startup awaits (app.initialize, app.start,
updater.start_polling) complete without raising. -/
structure StartupOutcome where
  initOk : Bool
  startOk : Bool
  pollOk : Bool
  deriving DecidableEq, Repr

/-- How the blocking stop_event.wait() ends: a KeyboardInterrupt or
SystemExit (caught by the except clause), or any other exception
(uncaught, but the finally clause still runs). -/
inductive WaitOutcome where
  | keyboardInterrupt
  | systemExit
  | unexpectedError
  deriving DecidableEq, Repr

/-- OrdersBot.run: builds the Application and registers handlers when not
yet built, then awaits initialize, start and start_polling in sequence
(each outside any try, so a failure propagates at once), then waits
inside try/except/finally; the finally clause performs updater.stop,
app.stop, app.shutdown.  Returns the trace of steps performed and whether
an exception propagates out of run. -/
def runBot (appBuilt : Bool) (su : StartupOutcome) (w : WaitOutcome) :
    List LEffect × Bool :=
  let buildFx := if appBuilt then [] else [LEffect.buildApplication, LEffect.registerHandlers]
  if su.initOk = false then (buildFx ++ [LEffect.initApp], true)
  else if su.startOk = false then (buildFx ++ [LEffect.initApp, LEffect.startApp], true)
  else if su.pollOk = false then
    (buildFx ++ [LEffect.initApp, LEffect.startApp, LEffect.startPolling], true)
  else
    let pre := buildFx ++ [LEffect.initApp, LEffect.startApp, LEffect.startPolling]
    let fin := [LEffect.updaterStop, LEffect.stopApp, LEffect.shutdownApp]
    match w with
    | WaitOutcome.keyboardInterrupt => (pre ++ fin, false)
    | WaitOutcome.systemExit => (pre ++ fin, false)
    | WaitOutcome.unexpectedError => (pre ++ fin, true)

-- ----- main() bootstrap -----

/-- Parameters handed to MCPServerStdio by main(). -/
structure MCPServerParams where
  command : String
  args : List String
  deriving DecidableEq, Repr

/-- main(): reads ORDERS_MCP_COMMAND (default "python") and
ORDERS_MCP_SCRIPT (default "orders_mcp_server.py") via os.getenv with a
default, and launches the MCP subprocess with that command and the script
as single argument. -/
def mcpServerParams (env : String → Option String) : MCPServerParams :=
  { command := (env "ORDERS_MCP_COMMAND").getD "python"
    args := [(env "ORDERS_MCP_SCRIPT").getD "orders_mcp_server.py"] }

/-- An environment defined only on the two MCP keys, used to enumerate
the set/unset combinations. -/
def envOf (cmd : Option String) (script : Option String) : String → Option String :=
  fun k =>
    if k = "ORDERS_MCP_COMMAND" then cmd
    else if k = "ORDERS_MCP_SCRIPT" then script
    else none

-- ----- registry operations as a transition system (for stability claims) -----

/-- A registry-touching operation of some chat: a session fetch, a /reset
command, or a full text-message handling with some agent outcome. -/
inductive Op where
  | getS (chatId : Int)
  | resetCmd (chatId : Int)
  | message (chatId : Int) (text : String) (agent : AgentOutcome)
  deriving Repr

/-- The chat id an operation concerns. -/
def opChatId : Op → Int
  | Op.getS i => i
  | Op.resetCmd i => i
  | Op.message i _ _ => i

/-- State reached by performing one operation. -/
def applyOp (bot : Bot) : Op → Bot
  | Op.getS i => (getSession bot i).2
  | Op.resetCmd i => (reset_command bot ⟨some ⟨i, some "/reset"⟩⟩).1
  | Op.message i t a => (handle_message bot ⟨some ⟨i, some t⟩⟩ a).1

/-- State reached by performing a sequence of operations. -/
def applyOps (bot : Bot) (ops : List Op) : Bot :=
  ops.foldl applyOp bot

/-- Registry invariant: session keys are pairwise distinct (at most one
session per conversation id), session handles are pairwise distinct, and
every stored handle is below the fresh-handle counter. -/
def Inv (bot : Bot) : Prop :=
  (bot.sessions.map Prod.fst).Nodup ∧
  (bot.sessions.map (fun p => p.2.handle)).Nodup ∧
  ∀ p ∈ bot.sessions, p.2.handle < bot.nextHandle

/-- A concrete bot state used to instantiate theorems: one session
registered for chat 3. -/
def sampleBot : Bot :=
  { telegramToken := "t"
    sessions := [(3, { handle := 0, sessionId := "3", dbPath := "sessions.db" })]
    nextHandle := 1
    applicationBuilt := false }

-- ----- helper lemmas on the registry -----

theorem lookupSession_append_ne (id i : Int) (s : Session) (l : List (Int × Session))
    (h : i ≠ id) : lookupSession id (l ++ [(i, s)]) = lookupSession id l := by
  induction l with
  | nil => simp [lookupSession, h]
  | cons p rest ih =>
      by_cases hk : p.1 = id
      · simp [lookupSession, hk]
      · simp [lookupSession, hk, ih]

theorem lookupSession_append_self (id : Int) (s : Session) (l : List (Int × Session))
    (h : lookupSession id l = none) : lookupSession id (l ++ [(id, s)]) = some s := by
  induction l with
  | nil => simp [lookupSession]
  | cons p rest ih =>
      by_cases hk : p.1 = id
      · simp [lookupSession, hk] at h
      · simp [lookupSession, hk] at h ⊢
        exact ih h

theorem lookupSession_erase_ne (id i : Int) (l : List (Int × Session))
    (h : i ≠ id) : lookupSession id (eraseSession i l) = lookupSession id l := by
  have hsymm : ¬ id = i := fun hc => h hc.symm
  induction l with
  | nil => rfl
  | cons p rest ih =>
      by_cases hk : p.1 = i
      · have hkid : ¬ p.1 = id := by rw [hk]; exact h
        simpa [eraseSession, List.filter_cons, hk, lookupSession, hkid, hsymm, h] using ih
      · by_cases hid : p.1 = id
        · simp [eraseSession, List.filter_cons, hk, lookupSession, hid, hsymm]
        · simpa [eraseSession, List.filter_cons, hk, lookupSession, hid, hsymm] using ih

theorem lookupSession_erase_self (i : Int) (l : List (Int × Session)) :
    lookupSession i (eraseSession i l) = none := by
  induction l with
  | nil => rfl
  | cons p rest ih =>
      by_cases hk : p.1 = i
      · simp [eraseSession, List.filter_cons, hk] at ih ⊢
        exact ih
      · simp [eraseSession, List.filter_cons, hk, lookupSession] at ih ⊢
        exact ih

theorem getSession_of_lookup (bot : Bot) (id : Int) (s : Session)
    (h : lookupSession id bot.sessions = some s) : getSession bot id = (s, bot) := by
  simp [getSession, h]

theorem getSession_lookup (bot : Bot) (id : Int) :
    lookupSession id (getSession bot id).2.sessions = some (getSession bot id).1 := by
  unfold getSession
  cases hl : lookupSession id bot.sessions with
  | some s => exact hl
  | none => exact lookupSession_append_self id _ bot.sessions hl

theorem getSession_preserves_ne (bot : Bot) (i id : Int) (h : i ≠ id) :
    lookupSession id (getSession bot i).2.sessions = lookupSession id bot.sessions := by
  unfold getSession
  cases hl : lookupSession i bot.sessions with
  | some s => rfl
  | none => exact lookupSession_append_ne id i _ bot.sessions h

theorem applyOp_preserves_lookup (bot : Bot) (o : Op) (id : Int)
    (h : opChatId o ≠ id) :
    lookupSession id (applyOp bot o).sessions = lookupSession id bot.sessions := by
  cases o with
  | getS i => exact getSession_preserves_ne bot i id h
  | resetCmd i =>
      show lookupSession id (reset_command bot ⟨some ⟨i, some "/reset"⟩⟩).1.sessions = _
      cases hl : lookupSession i bot.sessions with
      | some s => simp [reset_command, hl, lookupSession_erase_ne id i bot.sessions h]
      | none => simp [reset_command, hl]
  | message i t a =>
      show lookupSession id (handle_message bot ⟨some ⟨i, some t⟩⟩ a).1.sessions = _
      unfold handle_message
      by_cases ht : pyTruthy (some t)
      · cases a with
        | raised => simp only [ht, if_true]; exact getSession_preserves_ne bot i id h
        | ok out => simp only [ht, if_true]; exact getSession_preserves_ne bot i id h
      · simp only [Bool.not_eq_true] at ht
        simp only [ht, Bool.false_eq_true, if_false]

theorem applyOps_preserves_lookup (id : Int) (ops : List Op) (bot : Bot)
    (h : ∀ o ∈ ops, opChatId o ≠ id) :
    lookupSession id (applyOps bot ops).sessions = lookupSession id bot.sessions := by
  induction ops generalizing bot with
  | nil => rfl
  | cons o rest ih =>
      have h1 : opChatId o ≠ id := h o (List.mem_cons_self o rest)
      have h2 : ∀ x ∈ rest, opChatId x ≠ id := fun x hx => h x (List.mem_cons_of_mem o hx)
      calc lookupSession id (applyOps (applyOp bot o) rest).sessions
          = lookupSession id (applyOp bot o).sessions := ih (applyOp bot o) h2
        _ = lookupSession id bot.sessions := applyOp_preserves_lookup bot o id h1

-- ----- claim theorems -----

/-- C2: for every conversation id, calling _get_session twice with the
same id returns the same session handle, the second call leaves the state
unchanged, and the identity is stable across any interleaved registry
operations (session fetches, resets, message handlings) for other ids. -/
theorem getSession_identity_stable (bot : Bot) (id : Int) (ops : List Op)
    (h : ∀ o ∈ ops, opChatId o ≠ id) :
    (getSession (applyOps (getSession bot id).2 ops) id).1 = (getSession bot id).1 ∧
    (getSession (getSession bot id).2 id).1 = (getSession bot id).1 ∧
    (getSession (getSession bot id).2 id).2 = (getSession bot id).2 := by
  have hl : lookupSession id (applyOps (getSession bot id).2 ops).sessions
      = some (getSession bot id).1 := by
    rw [applyOps_preserves_lookup id ops (getSession bot id).2 h]
    exact getSession_lookup bot id
  have h2 := getSession_of_lookup (getSession bot id).2 id (getSession bot id).1
    (getSession_lookup bot id)
  refine ⟨?_, ?_, ?_⟩
  · rw [getSession_of_lookup _ id _ hl]
  · rw [h2]
  · rw [h2]

/-- C2 witness: a concrete run with one interleaved operation on another
chat id. -/
theorem getSession_identity_stable_witness :
    (∀ o ∈ [Op.getS 5], opChatId o ≠ (7 : Int)) ∧
    (getSession (applyOps (getSession ⟨"t", [], 0, false⟩ 7).2 [Op.getS 5]) 7).1
      = (getSession ⟨"t", [], 0, false⟩ 7).1 :=
  ⟨by decide, (getSession_identity_stable ⟨"t", [], 0, false⟩ 7 [Op.getS 5]
      (by decide)).1⟩

/-- C9: when the update has no message, or the message text is absent or
empty, handle_message returns without any effect (no reply, no agent
invocation) and leaves the bot state unchanged. -/
theorem handle_message_guard_noop (bot : Bot) (upd : TgUpdate) (a : AgentOutcome)
    (h : upd.message = none ∨
         ∃ m, upd.message = some m ∧ (m.text = none ∨ m.text = some "")) :
    handle_message bot upd a = (bot, []) := by
  rcases h with h | ⟨m, hm, ht⟩
  · simp [handle_message, h]
  · rcases ht with ht | ht <;> simp [handle_message, hm, pyTruthy, ht]

/-- C9 witness: a messageless update is ignored. -/
theorem handle_message_guard_noop_witness :
    ((⟨none⟩ : TgUpdate).message = none) ∧
    handle_message ⟨"t", [(3, ⟨0, "3", "sessions.db"⟩)], 1, false⟩ ⟨none⟩
      AgentOutcome.raised = (⟨"t", [(3, ⟨0, "3", "sessions.db"⟩)], 1, false⟩, []) :=
  ⟨rfl, handle_message_guard_noop _ _ _ (Or.inl rfl)⟩

/-- C1: for an inbound non-command text message whose agent invocation
raises, handle_message catches the exception (it returns a result instead
of propagating), logs it, and the only reply sent is exactly the fixed
apology text. -/
theorem handle_message_raised_apology (bot : Bot) (m : Message) (t : String)
    (ht : m.text = some t) (hne : t ≠ "") :
    repliesOf (handle_message bot ⟨some m⟩ AgentOutcome.raised).2 = [apologyText] ∧
    Effect.logException ∈ (handle_message bot ⟨some m⟩ AgentOutcome.raised).2 := by
  have htr : pyTruthy m.text = true := by simp [pyTruthy, ht, hne]
  simp [handle_message, htr, repliesOf]

/-- C1 witness: a concrete message whose agent invocation raises. -/
theorem handle_message_raised_apology_witness :
    ((⟨7, some "ciao"⟩ : Message).text = some "ciao") ∧ "ciao" ≠ "" ∧
    repliesOf (handle_message sampleBot ⟨some ⟨7, some "ciao"⟩⟩
      AgentOutcome.raised).2 = [apologyText] ∧
    Effect.logException ∈ (handle_message sampleBot ⟨some ⟨7, some "ciao"⟩⟩
      AgentOutcome.raised).2 :=
  ⟨rfl, by decide,
   handle_message_raised_apology sampleBot ⟨7, some "ciao"⟩ "ciao" rfl (by decide)⟩

/-- C4: for a message whose agent invocation succeeds, the only reply is
the agent final output; when that output is absent or empty, the reply is
the fixed fallback text instead of an empty message. -/
theorem handle_message_ok_reply (bot : Bot) (m : Message) (t : String)
    (out : Option String) (ht : m.text = some t) (hne : t ≠ "") :
    repliesOf (handle_message bot ⟨some m⟩ (AgentOutcome.ok out)).2 =
      [out.elim fallbackText (fun s => if s = "" then fallbackText else s)] := by
  have htr : pyTruthy m.text = true := by simp [pyTruthy, ht, hne]
  cases out with
  | none =>
      simp only [handle_message, htr]
      simp [repliesOf, pyOr, pyTruthy]
  | some s =>
      by_cases hs : s = ""
      · simp only [handle_message, htr]
        simp [repliesOf, pyOr, pyTruthy, hs]
      · simp only [handle_message, htr]
        simp [repliesOf, pyOr, pyTruthy, hs]

/-- C4 witness: an empty final output is replaced by the fallback. -/
theorem handle_message_ok_reply_witness :
    ((⟨7, some "ciao"⟩ : Message).text = some "ciao") ∧ "ciao" ≠ "" ∧
    repliesOf (handle_message sampleBot ⟨some ⟨7, some "ciao"⟩⟩
      (AgentOutcome.ok (some ""))).2 =
      [(some "").elim fallbackText (fun s => if s = "" then fallbackText else s)] :=
  ⟨rfl, by decide,
   handle_message_ok_reply sampleBot ⟨7, some "ciao"⟩ "ciao" (some "") rfl (by decide)⟩

/-- C3: reset_command with a message: when a session is registered for
the chat it clears that session and removes its registry entry, otherwise
it leaves the registry untouched; in both cases the only reply is the
confirmation text, afterwards no session is registered for that chat, and
a subsequent _get_session constructs a brand-new session for it. -/
theorem reset_command_spec (bot : Bot) (m : Message) :
    (lookupSession m.chatId bot.sessions).elim
      (reset_command bot ⟨some m⟩ = (bot, [Effect.reply resetConfirmText]))
      (fun s => reset_command bot ⟨some m⟩ =
        ({ bot with sessions := eraseSession m.chatId bot.sessions },
         [Effect.clearSession s.handle, Effect.reply resetConfirmText])) ∧
    lookupSession m.chatId (reset_command bot ⟨some m⟩).1.sessions = none ∧
    (getSession (reset_command bot ⟨some m⟩).1 m.chatId).1 =
      ⟨(reset_command bot ⟨some m⟩).1.nextHandle, toString m.chatId, "sessions.db"⟩ := by
  cases hl : lookupSession m.chatId bot.sessions with
  | none =>
      refine ⟨?_, ?_, ?_⟩
      · simp [Option.elim, reset_command, hl]
      · simp [reset_command, hl]
      · simp [reset_command, hl, getSession]
  | some s =>
      refine ⟨?_, ?_, ?_⟩
      · simp [Option.elim, reset_command, hl]
      · simp [reset_command, hl, lookupSession_erase_self]
      · simp [reset_command, hl, getSession, lookupSession_erase_self]

/-- C3 witness: resetting chat 3, which has a session on the sample
state. -/
theorem reset_command_spec_witness :
    (lookupSession 3 sampleBot.sessions).elim
      (reset_command sampleBot ⟨some ⟨3, some "/reset"⟩⟩ =
        (sampleBot, [Effect.reply resetConfirmText]))
      (fun s => reset_command sampleBot ⟨some ⟨3, some "/reset"⟩⟩ =
        ({ sampleBot with sessions := eraseSession 3 sampleBot.sessions },
         [Effect.clearSession s.handle, Effect.reply resetConfirmText])) ∧
    lookupSession 3 (reset_command sampleBot ⟨some ⟨3, some "/reset"⟩⟩).1.sessions = none ∧
    (getSession (reset_command sampleBot ⟨some ⟨3, some "/reset"⟩⟩).1 3).1 =
      ⟨(reset_command sampleBot ⟨some ⟨3, some "/reset"⟩⟩).1.nextHandle,
       toString (3 : Int), "sessions.db"⟩ :=
  reset_command_spec sampleBot ⟨3, some "/reset"⟩

/-- C6: when TELEGRAM_BOT_TOKEN is absent or empty, OrdersBot
construction fails with the fatal RuntimeError message; and no
construction ever yields a bot whose transport application is already
built, so the failure precedes any chat activity. -/
theorem initBot_missing_token (env env2 : String → Option String)
    (h : env "TELEGRAM_BOT_TOKEN" = none ∨ env "TELEGRAM_BOT_TOKEN" = some "") :
    initBot env =
      Except.error "TELEGRAM_BOT_TOKEN non impostato nelle variabili d\x27ambiente" ∧
    (initBot env2).map Bot.applicationBuilt ≠ Except.ok true := by
  constructor
  · rcases h with h | h <;> simp [initBot, h, pyTruthy]
  · unfold initBot
    by_cases ht : pyTruthy (env2 "TELEGRAM_BOT_TOKEN")
    · simp [ht, Except.map]
    · simp [ht, Except.map]

/-- C6 witness: an empty environment makes construction fail. -/
theorem initBot_missing_token_witness :
    ((fun _ => (none : Option String)) "TELEGRAM_BOT_TOKEN" = none ∨
     (fun _ => (none : Option String)) "TELEGRAM_BOT_TOKEN" = some "") ∧
    initBot (fun _ => none) =
      Except.error "TELEGRAM_BOT_TOKEN non impostato nelle variabili d\x27ambiente" ∧
    (initBot (fun _ => some "tok")).map Bot.applicationBuilt ≠ Except.ok true :=
  ⟨Or.inl rfl, initBot_missing_token (fun _ => none) (fun _ => some "tok") (Or.inl rfl)⟩

/-- C8: main reads ORDERS_MCP_COMMAND (default python) and
ORDERS_MCP_SCRIPT (default orders_mcp_server.py) and launches the MCP
subprocess with that command and the script as its single argument, in
all four set or unset combinations of the two variables. -/
theorem mcpServerParams_spec :
    (∀ c s : String, mcpServerParams (envOf (some c) (some s)) = ⟨c, [s]⟩) ∧
    (∀ c : String, mcpServerParams (envOf (some c) none) = ⟨c, ["orders_mcp_server.py"]⟩) ∧
    (∀ s : String, mcpServerParams (envOf none (some s)) = ⟨"python", [s]⟩) ∧
    mcpServerParams (envOf none none) = ⟨"python", ["orders_mcp_server.py"]⟩ := by
  refine ⟨fun c s => ?_, fun c => ?_, fun s => ?_, ?_⟩ <;> simp [mcpServerParams, envOf]

/-- C8 witness: a set command with an unset script keeps the script
default. -/
theorem mcpServerParams_spec_witness :
    mcpServerParams (envOf (some "python3") none) =
      ⟨"python3", ["orders_mcp_server.py"]⟩ :=
  mcpServerParams_spec.2.1 "python3"

/-- C10: reset_command for one chat preserves every other chat's registry
entry, its effect trace touches only the session registered for its own
chat (a clear of that session's handle, then the confirmation reply), and
/start and /help never change the bot state. -/
theorem reset_command_frame (bot : Bot) (m : Message) (other : Int)
    (h : other ≠ m.chatId) (upd : TgUpdate) :
    lookupSession other (reset_command bot ⟨some m⟩).1.sessions =
      lookupSession other bot.sessions ∧
    (reset_command bot ⟨some m⟩).2 =
      (lookupSession m.chatId bot.sessions).elim [Effect.reply resetConfirmText]
        (fun s => [Effect.clearSession s.handle, Effect.reply resetConfirmText]) ∧
    resultState bot (start bot upd) = bot ∧
    resultState bot (help_command bot upd) = bot := by
  refine ⟨?_, ?_, ?_, ?_⟩
  · cases hl : lookupSession m.chatId bot.sessions with
    | some s =>
        simp [reset_command, hl,
          lookupSession_erase_ne other m.chatId bot.sessions (Ne.symm h)]
    | none => simp [reset_command, hl]
  · cases hl : lookupSession m.chatId bot.sessions with
    | some s => simp [reset_command, hl, Option.elim]
    | none => simp [reset_command, hl, Option.elim]
  · cases hu : upd.message with
    | none => simp [start, resultState, hu]
    | some mm => simp [start, resultState, hu]
  · cases hu : upd.message with
    | none => simp [help_command, resultState, hu]
    | some mm => simp [help_command, resultState, hu]

/-- C10 witness: resetting chat 7 leaves chat 3's entry alone. -/
theorem reset_command_frame_witness :
    ((3 : Int) ≠ 7) ∧
    (lookupSession 3 (reset_command sampleBot ⟨some ⟨7, some "/reset"⟩⟩).1.sessions =
       lookupSession 3 sampleBot.sessions ∧
     (reset_command sampleBot ⟨some ⟨7, some "/reset"⟩⟩).2 =
       (lookupSession 7 sampleBot.sessions).elim [Effect.reply resetConfirmText]
         (fun s => [Effect.clearSession s.handle, Effect.reply resetConfirmText]) ∧
     resultState sampleBot (start sampleBot ⟨none⟩) = sampleBot ∧
     resultState sampleBot (help_command sampleBot ⟨none⟩) = sampleBot) :=
  ⟨by decide, reset_command_frame sampleBot ⟨7, some "/reset"⟩ 3 (by decide) ⟨none⟩⟩

/-- C5 counterexample: when app.initialize raises during startup, run
performs no shutdown step at all, so the claim that the shutdown sequence
always executes even when startup raised fails at this input. -/
theorem runBot_startup_failure_no_shutdown :
    (runBot true ⟨false, true, true⟩ WaitOutcome.keyboardInterrupt).1 = [LEffect.initApp] ∧
    LEffect.updaterStop ∉ (runBot true ⟨false, true, true⟩ WaitOutcome.keyboardInterrupt).1 ∧
    LEffect.stopApp ∉ (runBot true ⟨false, true, true⟩ WaitOutcome.keyboardInterrupt).1 ∧
    LEffect.shutdownApp ∉ (runBot true ⟨false, true, true⟩ WaitOutcome.keyboardInterrupt).1 ∧
    (runBot true ⟨false, true, true⟩ WaitOutcome.keyboardInterrupt).2 = true := by
  decide

/-- C5 amended: once the three startup awaits (initialize, start,
start_polling) complete, the shutdown sequence (updater.stop, app.stop,
app.shutdown, in that order) executes for every wait outcome — a caught
interrupt as well as an uncaught error; when a startup await itself
raises, the error propagates and no shutdown step runs. -/
theorem runBot_shutdown_after_startup (b : Bool) (su : StartupOutcome) (w : WaitOutcome)
    (h : su.initOk = true ∧ su.startOk = true ∧ su.pollOk = true) :
    (runBot b su w).1.reverse.take 3 =
      [LEffect.shutdownApp, LEffect.stopApp, LEffect.updaterStop] := by
  obtain ⟨i, s, p⟩ := su
  obtain ⟨h1, h2, h3⟩ := h
  cases h1
  cases h2
  cases h3
  cases b <;> cases w <;> rfl

/-- C5 amended witness: successful startup followed by an uncaught error
in the polling wait still ends with the shutdown sequence. -/
theorem runBot_shutdown_after_startup_witness :
    ((⟨true, true, true⟩ : StartupOutcome).initOk = true ∧
     (⟨true, true, true⟩ : StartupOutcome).startOk = true ∧
     (⟨true, true, true⟩ : StartupOutcome).pollOk = true) ∧
    (runBot false ⟨true, true, true⟩ WaitOutcome.unexpectedError).1.reverse.take 3 =
      [LEffect.shutdownApp, LEffect.stopApp, LEffect.updaterStop] :=
  ⟨by decide,
   runBot_shutdown_after_startup false ⟨true, true, true⟩ WaitOutcome.unexpectedError
     (by decide)⟩

theorem lookupSession_none_key (id : Int) (l : List (Int × Session))
    (h : lookupSession id l = none) : ∀ p ∈ l, p.1 ≠ id := by
  induction l with
  | nil => intro p hp; cases hp
  | cons q rest ih =>
      intro p hp
      by_cases hq : q.1 = id
      · rw [lookupSession, if_pos hq] at h; cases h
      · rw [lookupSession, if_neg hq] at h
        rcases List.mem_cons.mp hp with rfl | hp2
        · exact hq
        · exact ih h p hp2

theorem Inv_getSession (bot : Bot) (id : Int) (h : Inv bot) :
    Inv (getSession bot id).2 := by
  obtain ⟨hkeys, hhandles, hlt⟩ := h
  unfold getSession
  cases hl : lookupSession id bot.sessions with
  | some s => exact ⟨hkeys, hhandles, hlt⟩
  | none =>
      have hnk := lookupSession_none_key id bot.sessions hl
      refine ⟨?_, ?_, ?_⟩
      · show ((bot.sessions ++
            [(id, ({ handle := bot.nextHandle, sessionId := toString id,
                     dbPath := "sessions.db" } : Session))]).map Prod.fst).Nodup
        rw [List.map_append, List.nodup_append]
        refine ⟨hkeys, by simp, ?_⟩
        intro a ha
        simp only [List.map_cons, List.map_nil, List.mem_singleton]
        rcases List.mem_map.mp ha with ⟨p, hp, rfl⟩
        exact hnk p hp
      · show ((bot.sessions ++
            [(id, ({ handle := bot.nextHandle, sessionId := toString id,
                     dbPath := "sessions.db" } : Session))]).map
              (fun p => p.2.handle)).Nodup
        rw [List.map_append, List.nodup_append]
        refine ⟨hhandles, by simp, ?_⟩
        intro a ha
        simp only [List.map_cons, List.map_nil, List.mem_singleton]
        rcases List.mem_map.mp ha with ⟨p, hp, rfl⟩
        exact Nat.ne_of_lt (hlt p hp)
      · show ∀ p ∈ bot.sessions ++
            [(id, ({ handle := bot.nextHandle, sessionId := toString id,
                     dbPath := "sessions.db" } : Session))],
            p.2.handle < bot.nextHandle + 1
        intro p hp
        rcases List.mem_append.mp hp with hp1 | hp2
        · exact Nat.lt_succ_of_lt (hlt p hp1)
        · simp only [List.mem_singleton] at hp2
          subst hp2
          exact Nat.lt_succ_self _

theorem Inv_reset (bot : Bot) (upd : TgUpdate) (h : Inv bot) :
    Inv (reset_command bot upd).1 := by
  obtain ⟨hkeys, hhandles, hlt⟩ := h
  cases hu : upd.message with
  | none =>
      simp only [reset_command, hu]
      exact ⟨hkeys, hhandles, hlt⟩
  | some m =>
      cases hl : lookupSession m.chatId bot.sessions with
      | some s =>
          have hsub : List.Sublist (eraseSession m.chatId bot.sessions) bot.sessions :=
            List.filter_sublist _
          simp only [reset_command, hu, hl]
          refine ⟨?_, ?_, ?_⟩
          · exact List.Nodup.sublist (hsub.map Prod.fst) hkeys
          · exact List.Nodup.sublist (hsub.map (fun p => p.2.handle)) hhandles
          · intro p hp
            exact hlt p (hsub.subset hp)
      | none =>
          simp only [reset_command, hu, hl]
          exact ⟨hkeys, hhandles, hlt⟩

theorem Inv_handle_message (bot : Bot) (upd : TgUpdate) (a : AgentOutcome)
    (h : Inv bot) : Inv (handle_message bot upd a).1 := by
  unfold handle_message
  cases hu : upd.message with
  | none => exact h
  | some m =>
      by_cases ht : pyTruthy m.text
      · cases a with
        | raised => simpa only [ht, if_true] using Inv_getSession bot m.chatId h
        | ok out => simpa only [ht, if_true] using Inv_getSession bot m.chatId h
      · simp only [Bool.not_eq_true] at ht
        simp only [ht, Bool.false_eq_true, if_false]
        exact h

/-- C7: the registry invariant — at most one session per conversation id
(pairwise-distinct keys), pairwise-distinct session handles, all below
the fresh-handle counter — holds of a freshly constructed bot and is
preserved by _get_session, reset_command, handle_message, start and
help_command, so it holds at every reachable state. -/
theorem registry_invariant_preserved (bot : Bot) (hInv : Inv bot) (id : Int)
    (upd : TgUpdate) (a : AgentOutcome) (tok : String) :
    Inv { telegramToken := tok, sessions := [], nextHandle := 0,
          applicationBuilt := false } ∧
    Inv (getSession bot id).2 ∧
    Inv (reset_command bot upd).1 ∧
    Inv (handle_message bot upd a).1 ∧
    Inv (resultState bot (start bot upd)) ∧
    Inv (resultState bot (help_command bot upd)) := by
  refine ⟨?_, Inv_getSession bot id hInv, Inv_reset bot upd hInv,
    Inv_handle_message bot upd a hInv, ?_, ?_⟩
  · exact ⟨List.nodup_nil, List.nodup_nil, fun p hp => nomatch hp⟩
  · cases hu : upd.message with
    | none => simpa [start, resultState, hu] using hInv
    | some mm => simpa [start, resultState, hu] using hInv
  · cases hu : upd.message with
    | none => simpa [help_command, resultState, hu] using hInv
    | some mm => simpa [help_command, resultState, hu] using hInv

/-- C7 witness: the invariant holds of a concrete state and is preserved
by each handler applied there. -/
theorem registry_invariant_preserved_witness :
    Inv sampleBot ∧
    (Inv { telegramToken := "t", sessions := [], nextHandle := 0,
           applicationBuilt := false } ∧
     Inv (getSession sampleBot 7).2 ∧
     Inv (reset_command sampleBot ⟨none⟩).1 ∧
     Inv (handle_message sampleBot ⟨none⟩ AgentOutcome.raised).1 ∧
     Inv (resultState sampleBot (start sampleBot ⟨none⟩)) ∧
     Inv (resultState sampleBot (help_command sampleBot ⟨none⟩))) :=
  ⟨by unfold Inv; decide,
   registry_invariant_preserved sampleBot (by unfold Inv; decide) 7 ⟨none⟩
     AgentOutcome.raised "t"⟩

end GestOrderBot
